import Mathlib

/-!
Verification of `enable_aws_adaptive_polling.py` (signalfx/splunk-aws-adaptive-polling).

The script is a one-shot CLI pipeline: fetch integrations (GET), classify each
record into one of four buckets (candidate / filtered_disabled /
filtered_cold_poll_set / filtered_streaming), preview, confirm, then PUT an
updated body per candidate and report.

We embed the decoded JSON world shallowly: a JSON value is `JValue`
(Python's `json.loads` maps JSON null to `None`, which we model as
`JValue.null`); a decoded JSON object (Python `dict`) is an association list
`List (String × JValue)` with unique keys (as produced by `json.loads`).
Numbers are idealized as rationals `ℚ` (exact arithmetic in place of IEEE
floats; every concrete value the claims exercise is exactly representable).
Console output is modelled as a list of structured events, one per `print`
call, carrying the data the corresponding f-string interpolates; the purely
cosmetic column-width layout of `print_table` is not modelled.
-/

/-- JSON value as decoded by `json.loads`: Python `None`/`bool`/number/`str`/
`list`/`dict`.  Numbers are idealized as `ℚ`. -/
inductive JValue where
  | null
  | bool (b : Bool)
  | num (q : ℚ)
  | str (s : String)
  | arr (items : List JValue)
  | obj (fields : List (String × JValue))

/-- Decoded JSON object (Python `dict` from `json.loads`): association list
with unique keys, insertion-ordered like a Python dict. -/
abbrev PyDict := List (String × JValue)

/-- Python truthiness (`bool(v)`) of a decoded JSON value: `None`, `False`,
`0`, `""`, `[]` and `{}` are falsy, everything else truthy. -/
def truthy : JValue → Bool
  | .null => false
  | .bool b => b
  | .num q => q ≠ 0
  | .str s => s ≠ ""
  | .arr items => !items.isEmpty
  | .obj fields => !fields.isEmpty

/-- Python truthiness of a `dict.get` result (`None` for a missing key is
falsy). -/
def truthyOpt : Option JValue → Bool
  | none => false
  | some v => truthy v

/-- Python `d.get(k)` without a default: `some v` when the key is present
(`v = JValue.null` when the stored value is JSON null), `none` when absent. -/
def pyGet (d : PyDict) (k : String) : Option JValue :=
  (d.find? (fun kv => kv.1 = k)).map (fun kv => kv.2)

/-- Python `k in d`. -/
def keyIn (d : PyDict) (k : String) : Bool :=
  d.any (fun kv => kv.1 = k)

/-- Python `d.get(k) is not None`: the key is present and its stored value is
not JSON null (both an absent key and a stored null read back as `None`). -/
def pyGetIsNotNone (d : PyDict) (k : String) : Bool :=
  match pyGet d k with
  | some .null => false
  | some _ => true
  | none => false

/-- Python `d.get(k) == "ENABLED"`: only a present string field equal to
`"ENABLED"` compares true (`None == "ENABLED"` is `False` in Python). -/
def pyGetEqEnabled (d : PyDict) (k : String) : Bool :=
  match pyGet d k with
  | some (.str s) => s = "ENABLED"
  | _ => false

/-- Python `dict(d)` followed by `d[k] = v`: replace the value at an existing
key in place (Python dicts keep the original insertion position on update),
or append the new pair at the end. -/
def dictSet (d : PyDict) (k : String) (v : JValue) : PyDict :=
  match d with
  | [] => [(k, v)]
  | (k0, v0) :: rest =>
      if k0 = k then (k, v) :: rest else (k0, v0) :: dictSet rest k v

/-- The three CLI options consumed by `main` after parsing
(`args.coldPollRateMinutes`, `args.includeDisabled`, `args.overrideExisting`).
`domainName` and `apiToken` only shape URLs/headers and are not modelled. -/
structure Args where
  coldPollRateMinutes : Int
  includeDisabled : Bool
  overrideExisting : Bool

/-- The four eligibility buckets of the filter loop (spec §3 "Eligibility
decision"). -/
inductive Bucket where
  | candidate
  | filtered_disabled
  | filtered_cold_poll_set
  | filtered_streaming
deriving DecidableEq

/-- Eligibility classification of one record: the `if`/`elif` chain of the
filter loop, lines 139–154 of `enable_aws_adaptive_polling.py`:
rule 1 `not args.includeDisabled and not item.get("enabled", False)`;
rule 2 `not args.overrideExisting and "coldPollRate" in item and
item.get("coldPollRate") is not None`;
rule 3 `item.get("metricStreamsSyncState") == "ENABLED"`;
otherwise candidate. -/
def classify (a : Args) (item : PyDict) : Bucket :=
  if !a.includeDisabled && !truthy ((pyGet item "enabled").getD (.bool false)) then
    .filtered_disabled
  else if !a.overrideExisting && keyIn item "coldPollRate"
      && pyGetIsNotNone item "coldPollRate" then
    .filtered_cold_poll_set
  else if pyGetEqEnabled item "metricStreamsSyncState" then
    .filtered_streaming
  else
    .candidate

/-- The four accumulator lists of the filter loop: `candidates` keeps whole
records, the three `filtered_*` lists keep only the truthy `id` values. -/
structure FilterOut where
  candidates : List PyDict
  filtered_disabled : List JValue
  filtered_cold_poll : List JValue
  filtered_streaming : List JValue

/-- Helper for `integ_id = item.get("id"); if integ_id: bucket.append(integ_id)`:
cons the record's `id` onto a bucket list only when it is truthy. -/
def idConsIfTruthy (item : PyDict) (tail : List JValue) : List JValue :=
  match pyGet item "id" with
  | some v => if truthy v then v :: tail else tail
  | none => tail

/-- The filter loop (`for item in results:`, lines 136–154): non-`dict`
items are skipped; each `dict` record is routed by `classify`, filtered
buckets recording only truthy ids, candidates recording whole records, all
in input order. -/
def filterRecords (a : Args) : List JValue → FilterOut
  | [] => ⟨[], [], [], []⟩
  | v :: rest =>
      let r := filterRecords a rest
      match v with
      | .obj item =>
          match classify a item with
          | .filtered_disabled =>
              { r with filtered_disabled := idConsIfTruthy item r.filtered_disabled }
          | .filtered_cold_poll_set =>
              { r with filtered_cold_poll := idConsIfTruthy item r.filtered_cold_poll }
          | .filtered_streaming =>
              { r with filtered_streaming := idConsIfTruthy item r.filtered_streaming }
          | .candidate =>
              { r with candidates := item :: r.candidates }
      | _ => r

/-- Python `len(v)` on a decoded JSON value: defined for `list`, `str` and
`dict`, a `TypeError` (modelled as `none`) otherwise. -/
def pyLen : JValue → Option Nat
  | .arr items => some items.length
  | .str s => some s.length
  | .obj fields => some fields.length
  | _ => none

/-- Python iteration `for item in v:` over a decoded JSON value: a `list`
yields its elements, a `str` its one-character strings, a `dict` its keys;
anything else raises `TypeError` (modelled as `none`).  `pyLen` is defined
on exactly the same values. -/
def pyIter : JValue → Option (List JValue)
  | .arr items => some items
  | .str s => some (s.data.map (fun c => .str (String.singleton c)))
  | .obj fields => some (fields.map (fun kv => .str kv.1))
  | _ => none

/-- Line 129: `results = payload.get("results", []) if isinstance(payload, dict)
else []`.  The GET's decoded body `payload` is `none` when the response body
was empty (then `http_request` returned `None`). -/
def resultsOf (payload : Option JValue) : JValue :=
  match payload with
  | some (.obj fields) => (pyGet fields "results").getD (.arr [])
  | _ => .arr []

/-- Numeric core of `format_minutes` (lines 33–38): after `float(value)`
succeeds, `if numeric >= 1000: numeric = numeric / 60000`.  Python float
arithmetic is idealized as exact rational arithmetic; the subsequent string
rendering (`is_integer`/`round`) is not modelled. -/
def format_minutes_core (v : ℚ) : ℚ :=
  if v ≥ 1000 then v / 60000 else v

/-- One console `print` of `main`, carrying the data its f-string
interpolates (column layout of `print_table` not modelled):
`foundMsg n` = "Found n integration(s) of type AWSCloudWatch.";
`filteredDisabledMsg` / `filteredColdPollMsg` / `filteredStreamingMsg` =
the three "Filtered out ... (count): id, id, ..." lines;
`queuedMsg n rows` = "n integration(s) queued for update:" plus the preview
table; `promptMsg` = the "Proceed with updates? [y/N]:" prompt;
`abortedMsg` = "Aborted. No updates performed.";
`noCandidatesMsg` = "No integrations meet the provided criteria. No updates
performed."; `updateFailedBanner` = "Update FAILED before completion.";
`allUpdatesSucceededMsg m` = "All updates succeeded. Adaptive polling is
enabled and set to m minutes"; `updatedCountMsg rows` = "Updated N
integration(s):" plus its table; `updatedZeroMsg` = "Updated 0 integrations". -/
inductive Ev where
  | foundMsg (n : Nat)
  | filteredDisabledMsg (ids : List JValue)
  | filteredColdPollMsg (ids : List JValue)
  | filteredStreamingMsg (ids : List JValue)
  | queuedMsg (n : Nat) (rows : List (Option JValue × Option JValue × Option JValue))
  | promptMsg
  | abortedMsg
  | noCandidatesMsg
  | updateFailedBanner
  | allUpdatesSucceededMsg (minutes : Int)
  | updatedCountMsg (rows : List (JValue × Option JValue × Int))
  | updatedZeroMsg

/-- Event printed by `print_updated(rows, total_expected, ..., target_minutes)`
(lines 78–87): the success line when `total_expected` is truthy and all
expected rows are present, else a count-and-table form, else the zero line. -/
def print_updated (rows : List (JValue × Option JValue × Int))
    (total_expected : Nat) (target_minutes : Int) : Ev :=
  if total_expected ≠ 0 ∧ rows.length = total_expected then
    .allUpdatesSucceededMsg target_minutes
  else if !rows.isEmpty then
    .updatedCountMsg rows
  else
    .updatedZeroMsg

/-- Record carries a truthy `id` (the loop bodies test `if item.get("id"):`
and `if not integ_id: continue`). -/
def idBearing (item : PyDict) : Bool :=
  truthyOpt (pyGet item "id")

/-- The PUT request body for one candidate (lines 197–198): `body = dict(item)`
then `body["coldPollRate"] = args.coldPollRateMinutes * 60000`. -/
def putBody (a : Args) (item : PyDict) : PyDict :=
  dictSet item "coldPollRate" (.num (a.coldPollRateMinutes * 60000))

/-- The (id, body) pair of the PUT issued for one candidate. -/
def putPair (a : Args) (item : PyDict) : JValue × PyDict :=
  ((pyGet item "id").getD .null, putBody a item)

/-- The row appended to `updated` after one successful PUT (line 201). -/
def updRow (a : Args) (item : PyDict) : JValue × Option JValue × Int :=
  ((pyGet item "id").getD .null, pyGet item "name", a.coldPollRateMinutes)

/-- Result of the update loop (lines 190–204): the PUT requests issued in
order (integration id, request body), the `updated` rows appended so far,
and the exception message when a `http_request` call raised. -/
structure LoopResult where
  puts : List (JValue × PyDict)
  updated : List (JValue × Option JValue × Int)
  err : Option String

/-- The update loop (lines 193–201), with `k` counting PUTs already issued:
records lacking a truthy `id` are skipped; otherwise the body is
`dict(item)` with `coldPollRate` set to `coldPollRateMinutes * 60000`, the
PUT is issued, and on success `(id, name, minutes)` is appended to
`updated`.  `putFail i` is the outcome of the `i`-th PUT issued: `some msg`
when `http_request` raises `RuntimeError msg`, which aborts the loop. -/
def updateLoopAux (a : Args) (putFail : Nat → Option String) :
    List PyDict → Nat → LoopResult
  | [], _ => ⟨[], [], none⟩
  | item :: rest, k =>
      if idBearing item then
        match putFail k with
        | some msg => ⟨[putPair a item], [], some msg⟩
        | none =>
            let r := updateLoopAux a putFail rest (k + 1)
            ⟨putPair a item :: r.puts, updRow a item :: r.updated, r.err⟩
      else
        updateLoopAux a putFail rest k

/-- The update loop started with zero PUTs issued. -/
def updateLoop (a : Args) (cands : List PyDict) (putFail : Nat → Option String) :
    LoopResult :=
  updateLoopAux a putFail cands 0

/-- One run's environment beyond `args`: the decoded GET body, the raw line
read by `input(...)` at the confirmation prompt, and the outcome of each PUT
by issue index. -/
structure RunInput where
  args : Args
  payload : Option JValue
  reply : String
  putFail : Nat → Option String

/-- Observable outcome of one run: stdout as structured events in print
order, the PUT requests issued in order, the process exit code, and the
stderr line printed by the `__main__` boundary (lines 213–218), when any. -/
structure RunResult where
  stdout : List Ev
  puts : List (JValue × PyDict)
  exitCode : Nat
  stderr : Option String

/-- Python whitespace for the default `str.strip()`: space, tab, newline,
carriage return, vertical tab, form feed. -/
def pyIsSpace (c : Char) : Bool :=
  c = ' ' || c = '\t' || c = '\n' || c = '\r' || c = '\x0b' || c = '\x0c'

/-- Python `s.strip()` with no argument: drop leading and trailing
whitespace. -/
def pyStrip (s : String) : String :=
  ⟨((s.data.dropWhile pyIsSpace).reverse.dropWhile pyIsSpace).reverse⟩

/-- Python `s.lower()` (ASCII case mapping; the replies the tool compares
against are ASCII). -/
def pyLower (s : String) : String :=
  ⟨s.data.map Char.toLower⟩

/-- Line 181: `input(...).strip().lower()`. -/
def normalizeReply (reply : String) : String :=
  pyLower (pyStrip reply)

/-- The items iterated by the filter loop: `pyIter` of the extracted
`results` value (`none` = `TypeError` at `len(results)`, line 130). -/
def runItems (inp : RunInput) : Option (List JValue) :=
  pyIter (resultsOf inp.payload)

/-- The filter loop's output for a run (empty item list when the run dies
earlier; only used downstream on runs that reach the loop). -/
def runFilterOut (inp : RunInput) : FilterOut :=
  filterRecords inp.args ((runItems inp).getD [])

/-- Lines 156–160: the preview rows
`[(item.get("id"), item.get("name"), item.get("coldPollRate")) for item in
candidates if item.get("id")]`. -/
def runRemaining (inp : RunInput) :
    List (Option JValue × Option JValue × Option JValue) :=
  (runFilterOut inp).candidates.filterMap (fun item =>
    if truthyOpt (pyGet item "id") then
      some (pyGet item "id", pyGet item "name", pyGet item "coldPollRate")
    else
      none)

/-- Stdout produced before the remaining/no-candidates branch (lines
131–176): the "Found N" line then the three conditional "Filtered out"
lines. -/
def runPreEvents (inp : RunInput) (items : List JValue) : List Ev :=
  let fo := runFilterOut inp
  [Ev.foundMsg items.length]
    ++ (if !inp.args.includeDisabled && !fo.filtered_disabled.isEmpty then
          [Ev.filteredDisabledMsg fo.filtered_disabled] else [])
    ++ (if !inp.args.overrideExisting && !fo.filtered_cold_poll.isEmpty then
          [Ev.filteredColdPollMsg fo.filtered_cold_poll] else [])
    ++ (if !fo.filtered_streaming.isEmpty then
          [Ev.filteredStreamingMsg fo.filtered_streaming] else [])

/-- The whole of `main` plus the `__main__` boundary, for a run whose GET
succeeded with decoded body `inp.payload`.  Exit code 2 models the
`parser.error` path (argparse exits 2); a `TypeError` from `len(results)`
on a non-sized value, and a PUT `RuntimeError`, reach the boundary, which
prints `"\nError: ..."` to stderr and exits 1. -/
def run (inp : RunInput) : RunResult :=
  if inp.args.coldPollRateMinutes < 1 then
    ⟨[], [], 2, some "usage: --coldPollRateMinutes must be a positive value"⟩
  else
    match runItems inp with
    | none => ⟨[], [], 1, some ("\nError: " ++ "TypeError: object has no len()")⟩
    | some items =>
        let fo := runFilterOut inp
        let pre := runPreEvents inp items
        let remaining := runRemaining inp
        if remaining.isEmpty then
          ⟨pre ++ [Ev.noCandidatesMsg], [], 0, none⟩
        else
          let pre2 := pre ++ [Ev.queuedMsg remaining.length remaining, Ev.promptMsg]
          let rep := normalizeReply inp.reply
          if rep = "y" ∨ rep = "yes" then
            let lr := updateLoop inp.args fo.candidates inp.putFail
            match lr.err with
            | some msg =>
                ⟨pre2 ++ [Ev.updateFailedBanner,
                   print_updated lr.updated fo.candidates.length
                     inp.args.coldPollRateMinutes],
                 lr.puts, 1, some ("\nError: " ++ msg)⟩
            | none =>
                ⟨pre2 ++ [print_updated lr.updated fo.candidates.length
                     inp.args.coldPollRateMinutes],
                 lr.puts, 0, none⟩
          else
            ⟨pre2 ++ [Ev.abortedMsg], [], 0, none⟩

/-- Rule 1 of the spec (§4.2), stated from its words: `includeDisabled` is
false and the record's `enabled` field is not `true`. -/
def specDisabledRule (a : Args) (item : PyDict) : Prop :=
  a.includeDisabled = false ∧ pyGet item "enabled" ≠ some (.bool true)

/-- Rule 2 of the spec (§4.2), stated from its words: `overrideExisting` is
false and the record carries a non-null `coldPollRate`. -/
def specColdRule (a : Args) (item : PyDict) : Prop :=
  a.overrideExisting = false ∧
    ∃ v, pyGet item "coldPollRate" = some v ∧ v ≠ JValue.null

/-- Rule 3 of the spec (§4.2), stated from its words: `metricStreamsSyncState`
equals `"ENABLED"`. -/
def specStreamRule (item : PyDict) : Prop :=
  pyGet item "metricStreamsSyncState" = some (.str "ENABLED")

/-- Conformance to the spec's data model (§3): `enabled` is a boolean when
present. -/
def enabledWellTyped (item : PyDict) : Prop :=
  pyGet item "enabled" = none ∨ ∃ b, pyGet item "enabled" = some (.bool b)

/-- The `dict` items of a decoded JSON list, in order (the filter loop skips
every non-`dict` item). -/
def objItems : List JValue → List PyDict
  | [] => []
  | .obj fields :: rest => fields :: objItems rest
  | _ :: rest => objItems rest

/-- Default CLI options: `--coldPollRateMinutes 15`, both flags off. -/
def args0 : Args := ⟨15, false, false⟩

/-- Sample record: eligible in every rule but lacking an `id`. -/
def recNoId : PyDict := [("enabled", JValue.bool true)]

/-- Sample record: enabled, null `coldPollRate`, id `"intg-A"`. -/
def recA : PyDict :=
  [("id", JValue.str "intg-A"), ("enabled", JValue.bool true),
   ("name", JValue.str "aws-east"), ("coldPollRate", JValue.null)]

/-- Sample record: disabled, id `"intg-B"`. -/
def recB : PyDict := [("id", JValue.str "intg-B"), ("enabled", JValue.bool false)]

/-- Sample record: enabled with `metricStreamsSyncState == "ENABLED"`. -/
def recStream : PyDict :=
  [("id", JValue.str "intg-C"), ("enabled", JValue.bool true),
   ("metricStreamsSyncState", JValue.str "ENABLED")]

/-- Sample record: enabled, no `coldPollRate` key, id `"intg-E"`. -/
def recE : PyDict := [("id", JValue.str "intg-E"), ("enabled", JValue.bool true)]

/-- Run input: three records, confirmation `"y"`, every PUT succeeds. -/
def inpHappy : RunInput :=
  ⟨args0, some (.obj [("results", .arr [.obj recA, .obj recB, .obj recStream])]),
   "y", fun _ => none⟩

/-- Run input: empty `results` list. -/
def inpEmpty : RunInput :=
  ⟨args0, some (.obj [("results", .arr [])]), "n", fun _ => none⟩

/-- Run input: `results` is the number 7 (present but not a list). -/
def inpBadResults : RunInput :=
  ⟨args0, some (.obj [("results", .num 7)]), "n", fun _ => none⟩

/-- Run input: the only candidate lacks an `id`; the reply declines. -/
def inpNoIdDecline : RunInput :=
  ⟨args0, some (.obj [("results", .arr [.obj recNoId])]), "n", fun _ => none⟩

/-- Run input: one id-bearing candidate; the reply `" N "` declines. -/
def inpDecline : RunInput :=
  ⟨args0, some (.obj [("results", .arr [.obj recA])]), " N ", fun _ => none⟩

/-- Run input: a no-id candidate and an id-bearing one, confirmation `"y"`,
every PUT succeeds. -/
def inpMixed : RunInput :=
  ⟨args0, some (.obj [("results", .arr [.obj recNoId, .obj recA])]),
   "y", fun _ => none⟩

/-- Run input: two id-bearing candidates, confirmation `"yes"`, the first
PUT raises. -/
def inpFailFirst : RunInput :=
  ⟨args0, some (.obj [("results", .arr [.obj recA, .obj recE])]), "yes",
   fun i => if i = 0 then some "HTTP 500 for PUT" else none⟩

/-! ### Dictionary lemmas -/

theorem pyGet_nil (k : String) : pyGet [] k = none := rfl

theorem pyGet_cons (k0 k : String) (v0 : JValue) (rest : PyDict) :
    pyGet ((k0, v0) :: rest) k = if k0 = k then some v0 else pyGet rest k := by
  by_cases h : k0 = k <;> simp [pyGet, List.find?, h]

theorem pyGet_dictSet_self (d : PyDict) (k : String) (v : JValue) :
    pyGet (dictSet d k v) k = some v := by
  induction d with
  | nil => simp [dictSet, pyGet_cons]
  | cons kv rest ih =>
      obtain ⟨k0, v0⟩ := kv
      by_cases h : k0 = k
      · simp [dictSet, h, pyGet_cons]
      · simp [dictSet, h, pyGet_cons, ih]

theorem pyGet_dictSet_ne (d : PyDict) (k k' : String) (v : JValue)
    (h : k' ≠ k) : pyGet (dictSet d k v) k' = pyGet d k' := by
  induction d with
  | nil => simp [dictSet, pyGet_cons, Ne.symm h]
  | cons kv rest ih =>
      obtain ⟨k0, v0⟩ := kv
      by_cases h0 : k0 = k
      · subst h0
        simp [dictSet, pyGet_cons, Ne.symm h]
      · simp [dictSet, h0, pyGet_cons, ih]

theorem keyIn_eq_isSome (d : PyDict) (k : String) :
    keyIn d k = (pyGet d k).isSome := by
  induction d with
  | nil => rfl
  | cons kv rest ih =>
      obtain ⟨k0, v0⟩ := kv
      by_cases h : k0 = k
      · simp [keyIn, pyGet_cons, h]
      · simp [keyIn, pyGet_cons, h]
        simpa [keyIn] using ih

/-! ### Classification lemmas -/

theorem rule1_bool_iff (a : Args) (item : PyDict) (hEn : enabledWellTyped item) :
    ((!a.includeDisabled && !truthy ((pyGet item "enabled").getD (.bool false)))
        = true)
      ↔ specDisabledRule a item := by
  rcases hEn with h | ⟨b, h⟩
  · rcases hb : a.includeDisabled <;> simp [h, specDisabledRule, truthy, hb]
  · cases b <;> rcases hb : a.includeDisabled <;>
      simp [h, specDisabledRule, truthy, hb]

theorem rule2_bool_iff (a : Args) (item : PyDict) :
    ((!a.overrideExisting && keyIn item "coldPollRate"
        && pyGetIsNotNone item "coldPollRate") = true)
      ↔ specColdRule a item := by
  rcases hb : a.overrideExisting
  · rcases h : pyGet item "coldPollRate" with _ | v
    · simp [specColdRule, keyIn_eq_isSome, pyGetIsNotNone, hb, h]
    · rcases v <;> simp [specColdRule, keyIn_eq_isSome, pyGetIsNotNone, hb, h]
  · simp [specColdRule, hb]

theorem rule3_bool_iff (item : PyDict) :
    (pyGetEqEnabled item "metricStreamsSyncState" = true) ↔ specStreamRule item := by
  unfold pyGetEqEnabled specStreamRule
  rcases h : pyGet item "metricStreamsSyncState" with _ | v
  · simp
  · rcases v <;> simp [h]

theorem classify_eq_disabled_iff (a : Args) (item : PyDict)
    (hEn : enabledWellTyped item) :
    classify a item = .filtered_disabled ↔ specDisabledRule a item := by
  rw [← rule1_bool_iff a item hEn]
  unfold classify
  split_ifs with h1 h2 h3 <;> simp [*]

theorem classify_eq_cold_iff (a : Args) (item : PyDict)
    (hEn : enabledWellTyped item) :
    classify a item = .filtered_cold_poll_set
      ↔ ¬ specDisabledRule a item ∧ specColdRule a item := by
  rw [← rule1_bool_iff a item hEn, ← rule2_bool_iff a item]
  unfold classify
  split_ifs with h1 h2 h3 <;> simp [*]

theorem classify_eq_streaming_iff (a : Args) (item : PyDict)
    (hEn : enabledWellTyped item) :
    classify a item = .filtered_streaming
      ↔ ¬ specDisabledRule a item ∧ ¬ specColdRule a item
          ∧ specStreamRule item := by
  rw [← rule1_bool_iff a item hEn, ← rule2_bool_iff a item, ← rule3_bool_iff item]
  unfold classify
  split_ifs with h1 h2 h3 <;> simp [*]

theorem classify_eq_candidate_iff (a : Args) (item : PyDict)
    (hEn : enabledWellTyped item) :
    classify a item = .candidate
      ↔ ¬ specDisabledRule a item ∧ ¬ specColdRule a item
          ∧ ¬ specStreamRule item := by
  rw [← rule1_bool_iff a item hEn, ← rule2_bool_iff a item, ← rule3_bool_iff item]
  unfold classify
  split_ifs with h1 h2 h3 <;> simp [*]

theorem classify_congr (a : Args) (item item2 : PyDict)
    (h1 : pyGet item "enabled" = pyGet item2 "enabled")
    (h2 : pyGet item "coldPollRate" = pyGet item2 "coldPollRate")
    (h3 : pyGet item "metricStreamsSyncState"
            = pyGet item2 "metricStreamsSyncState") :
    classify a item = classify a item2 := by
  simp only [classify, pyGetIsNotNone, pyGetEqEnabled, keyIn_eq_isSome, h1, h2, h3]

theorem filterRecords_candidates (a : Args) (items : List JValue) :
    (filterRecords a items).candidates
      = (objItems items).filter
          (fun r => decide (classify a r = Bucket.candidate)) := by
  induction items with
  | nil => rfl
  | cons v rest ih =>
      cases v with
      | obj fields =>
          rcases hc : classify a fields <;>
            simp [filterRecords, objItems, hc, ih]
      | null => simpa [filterRecords, objItems] using ih
      | bool b => simpa [filterRecords, objItems] using ih
      | num q => simpa [filterRecords, objItems] using ih
      | str s => simpa [filterRecords, objItems] using ih
      | arr xs => simpa [filterRecords, objItems] using ih

theorem mem_candidates_classify (a : Args) (items : List JValue) (item : PyDict)
    (h : item ∈ (filterRecords a items).candidates) :
    classify a item = .candidate := by
  rw [filterRecords_candidates] at h
  rcases List.mem_filter.mp h with ⟨-, hd⟩
  exact of_decide_eq_true hd

/-! ### Update loop lemmas -/

theorem updateLoopAux_mem_puts (a : Args) (putFail : Nat → Option String) :
    ∀ (cands : List PyDict) (k : Nat) (p : JValue × PyDict),
      p ∈ (updateLoopAux a putFail cands k).puts →
        ∃ c ∈ cands, idBearing c = true ∧ p = putPair a c := by
  intro cands
  induction cands with
  | nil => intro k p hp; simp [updateLoopAux] at hp
  | cons item rest ih =>
      intro k p hp
      by_cases hid : idBearing item = true
      · rcases hf : putFail k with _ | msg
        · simp only [updateLoopAux, hid, if_true, hf] at hp
          rcases List.mem_cons.mp hp with h | h
          · exact ⟨item, List.mem_cons_self _ _, hid, h⟩
          · rcases ih (k + 1) p h with ⟨c, hc, hcid, hcp⟩
            exact ⟨c, List.mem_cons_of_mem _ hc, hcid, hcp⟩
        · simp only [updateLoopAux, hid, if_true, hf, List.mem_singleton] at hp
          exact ⟨item, List.mem_cons_self _ _, hid, hp⟩
      · simp only [updateLoopAux, hid, if_false, Bool.false_eq_true] at hp
        rcases ih k p hp with ⟨c, hc, hcid, hcp⟩
        exact ⟨c, List.mem_cons_of_mem _ hc, hcid, hcp⟩

theorem updateLoopAux_all_ok (a : Args) (putFail : Nat → Option String)
    (hok : ∀ i, putFail i = none) :
    ∀ (cands : List PyDict) (k : Nat),
      updateLoopAux a putFail cands k =
        ⟨(cands.filter idBearing).map (putPair a),
         (cands.filter idBearing).map (updRow a), none⟩ := by
  intro cands
  induction cands with
  | nil => intro k; rfl
  | cons item rest ih =>
      intro k
      by_cases hid : idBearing item = true
      · simp [updateLoopAux, hid, hok k, ih (k + 1), List.filter_cons]
      · simp [updateLoopAux, hid, ih k, List.filter_cons]

theorem updateLoopAux_fail (a : Args) (putFail : Nat → Option String) :
    ∀ (cands : List PyDict) (k j : Nat) (msg : String),
      (∀ i, i < j → putFail (k + i) = none) →
      putFail (k + j) = some msg →
      j < (cands.filter idBearing).length →
        (updateLoopAux a putFail cands k).err = some msg ∧
        (updateLoopAux a putFail cands k).puts.length = j + 1 ∧
        (updateLoopAux a putFail cands k).updated.length = j := by
  intro cands
  induction cands with
  | nil => intro k j msg _ _ hj; simp at hj
  | cons item rest ih =>
      intro k j msg hok hfail hj
      by_cases hid : idBearing item = true
      · cases j with
        | zero =>
            have hf : putFail k = some msg := by simpa using hfail
            simp [updateLoopAux, hid, hf]
        | succ j' =>
            have hf0 : putFail k = none := by simpa using hok 0 (Nat.succ_pos _)
            have hok' : ∀ i, i < j' → putFail (k + 1 + i) = none := by
              intro i hi
              have := hok (i + 1) (Nat.succ_lt_succ hi)
              simpa [Nat.add_assoc, Nat.add_comm 1 i] using this
            have hfail' : putFail (k + 1 + j') = some msg := by
              simpa [Nat.add_assoc, Nat.add_comm 1 j'] using hfail
            have hj' : j' < (rest.filter idBearing).length := by
              have : (List.filter idBearing (item :: rest)).length
                  = (rest.filter idBearing).length + 1 := by
                simp [List.filter_cons, hid]
              omega
            rcases ih (k + 1) j' msg hok' hfail' hj' with ⟨h1, h2, h3⟩
            simp [updateLoopAux, hid, hf0, h1, h2, h3]
      · have hj' : j < (rest.filter idBearing).length := by
          have : (List.filter idBearing (item :: rest)).length
              = (rest.filter idBearing).length := by
            simp [List.filter_cons, hid]
          omega
        rcases ih k j msg hok hfail hj' with ⟨h1, h2, h3⟩
        simp [updateLoopAux, hid, h1, h2, h3]

/-! ### Run branch lemmas -/

theorem promptMsg_not_mem_pre (inp : RunInput) (items : List JValue) :
    Ev.promptMsg ∉ runPreEvents inp items := by
  unfold runPreEvents
  simp only [List.mem_append, List.mem_singleton, not_or]
  split_ifs <;> simp

theorem allOkMsg_not_mem_pre (inp : RunInput) (items : List JValue)
    (m : Int) : Ev.allUpdatesSucceededMsg m ∉ runPreEvents inp items := by
  unfold runPreEvents
  simp only [List.mem_append, List.mem_singleton, not_or]
  split_ifs <;> simp

theorem run_eq_nocand (inp : RunInput) (items : List JValue)
    (hm : 1 ≤ inp.args.coldPollRateMinutes)
    (hitems : runItems inp = some items)
    (hrem : (runRemaining inp).isEmpty = true) :
    run inp = ⟨runPreEvents inp items ++ [Ev.noCandidatesMsg], [], 0, none⟩ := by
  unfold run
  rw [if_neg (by omega), hitems]
  simp [hrem]

theorem run_eq_aborted (inp : RunInput) (items : List JValue)
    (hm : 1 ≤ inp.args.coldPollRateMinutes)
    (hitems : runItems inp = some items)
    (hrem : (runRemaining inp).isEmpty = false)
    (hrep : ¬(normalizeReply inp.reply = "y" ∨ normalizeReply inp.reply = "yes")) :
    run inp =
      ⟨runPreEvents inp items
          ++ [Ev.queuedMsg (runRemaining inp).length (runRemaining inp),
              Ev.promptMsg, Ev.abortedMsg],
       [], 0, none⟩ := by
  unfold run
  rw [if_neg (by omega), hitems]
  simp [hrem, hrep]

theorem run_eq_loop_ok (inp : RunInput) (items : List JValue)
    (hm : 1 ≤ inp.args.coldPollRateMinutes)
    (hitems : runItems inp = some items)
    (hrem : (runRemaining inp).isEmpty = false)
    (hrep : normalizeReply inp.reply = "y" ∨ normalizeReply inp.reply = "yes")
    (herr : (updateLoop inp.args (runFilterOut inp).candidates inp.putFail).err
        = none) :
    run inp =
      ⟨runPreEvents inp items
          ++ [Ev.queuedMsg (runRemaining inp).length (runRemaining inp),
              Ev.promptMsg,
              print_updated
                (updateLoop inp.args (runFilterOut inp).candidates
                    inp.putFail).updated
                (runFilterOut inp).candidates.length
                inp.args.coldPollRateMinutes],
       (updateLoop inp.args (runFilterOut inp).candidates inp.putFail).puts,
       0, none⟩ := by
  unfold run
  rw [if_neg (by omega), hitems]
  simp [hrem, hrep, herr]

theorem run_eq_loop_err (inp : RunInput) (items : List JValue) (msg : String)
    (hm : 1 ≤ inp.args.coldPollRateMinutes)
    (hitems : runItems inp = some items)
    (hrem : (runRemaining inp).isEmpty = false)
    (hrep : normalizeReply inp.reply = "y" ∨ normalizeReply inp.reply = "yes")
    (herr : (updateLoop inp.args (runFilterOut inp).candidates inp.putFail).err
        = some msg) :
    run inp =
      ⟨runPreEvents inp items
          ++ [Ev.queuedMsg (runRemaining inp).length (runRemaining inp),
              Ev.promptMsg, Ev.updateFailedBanner,
              print_updated
                (updateLoop inp.args (runFilterOut inp).candidates
                    inp.putFail).updated
                (runFilterOut inp).candidates.length
                inp.args.coldPollRateMinutes],
       (updateLoop inp.args (runFilterOut inp).candidates inp.putFail).puts,
       1, some ("\nError: " ++ msg)⟩ := by
  unfold run
  rw [if_neg (by omega), hitems]
  simp [hrem, hrep, herr]

theorem run_puts_mem (inp : RunInput) (p : JValue × PyDict)
    (hp : p ∈ (run inp).puts) :
    ∃ c ∈ (runFilterOut inp).candidates, idBearing c = true ∧
      p = putPair inp.args c := by
  unfold run at hp
  split at hp
  · simp at hp
  · rcases hi : runItems inp with _ | items
    · rw [hi] at hp; simp at hp
    · rw [hi] at hp
      simp only at hp
      split at hp
      · simp at hp
      · split at hp
        · split at hp
          · exact updateLoopAux_mem_puts inp.args inp.putFail
              (runFilterOut inp).candidates 0 p (by simpa [updateLoop] using hp)
          · exact updateLoopAux_mem_puts inp.args inp.putFail
              (runFilterOut inp).candidates 0 p (by simpa [updateLoop] using hp)
        · simp at hp

/-! ### Additional list lemmas -/

theorem filterMap_guard {α β : Type} (p : α → Bool) (f : α → β) (l : List α) :
    (l.filterMap (fun x => if p x then some (f x) else none))
      = (l.filter p).map f := by
  induction l with
  | nil => rfl
  | cons a rest ih =>
      by_cases hp : p a = true <;>
        simp [List.filterMap_cons, List.filter_cons, hp, ih]

theorem filter_length_lt_of_mem_not {α : Type} (p : α → Bool) (l : List α)
    (x : α) (hx : x ∈ l) (hpx : p x = false) :
    (l.filter p).length < l.length := by
  induction l with
  | nil => simp at hx
  | cons a rest ih =>
      rcases List.mem_cons.mp hx with h | h
      · subst h
        have hle := List.length_filter_le p rest
        simp [List.filter_cons, hpx]
        omega
      · by_cases hp : p a = true
        · have := ih h
          simp [List.filter_cons, hp]
          omega
        · have hle := List.length_filter_le p rest
          have := ih h
          simp [List.filter_cons, hp]
          omega

/-- `runRemaining` is exactly the id-bearing candidates' preview rows. -/
theorem runRemaining_eq (inp : RunInput) :
    runRemaining inp
      = ((runFilterOut inp).candidates.filter idBearing).map
          (fun item =>
            (pyGet item "id", pyGet item "name", pyGet item "coldPollRate")) := by
  unfold runRemaining
  rw [← filterMap_guard]
  rfl

/-! ### C1 -/

/-- C1: for every fetched record list and flag setting, the eligibility
filter assigns each (data-model-conforming) record exactly one of the four
buckets by the fixed priority order — rule 1 disabled, rule 2 cold-poll-set,
rule 3 streaming, else candidate — the bucket is a pure function of the
`enabled`, `coldPollRate` and `metricStreamsSyncState` fields together with
the two flags, and the candidate list preserves input order (it is a filter
of the input records). -/
theorem C1_bucket_assignment (a : Args) (items : List JValue) (item : PyDict)
    (hEn : enabledWellTyped item) :
    (classify a item = .filtered_disabled ↔ specDisabledRule a item)
    ∧ (classify a item = .filtered_cold_poll_set
        ↔ ¬ specDisabledRule a item ∧ specColdRule a item)
    ∧ (classify a item = .filtered_streaming
        ↔ ¬ specDisabledRule a item ∧ ¬ specColdRule a item
            ∧ specStreamRule item)
    ∧ (classify a item = .candidate
        ↔ ¬ specDisabledRule a item ∧ ¬ specColdRule a item
            ∧ ¬ specStreamRule item)
    ∧ (∀ item2 : PyDict,
        pyGet item "enabled" = pyGet item2 "enabled" →
        pyGet item "coldPollRate" = pyGet item2 "coldPollRate" →
        pyGet item "metricStreamsSyncState"
          = pyGet item2 "metricStreamsSyncState" →
        classify a item = classify a item2)
    ∧ (filterRecords a items).candidates
        = (objItems items).filter
            (fun r => decide (classify a r = Bucket.candidate)) :=
  ⟨classify_eq_disabled_iff a item hEn,
   classify_eq_cold_iff a item hEn,
   classify_eq_streaming_iff a item hEn,
   classify_eq_candidate_iff a item hEn,
   fun item2 h1 h2 h3 => classify_congr a item item2 h1 h2 h3,
   filterRecords_candidates a items⟩

theorem C1_bucket_assignment_witness :
    enabledWellTyped recA ∧
      (¬ specDisabledRule args0 recA ∧ ¬ specColdRule args0 recA
        ∧ ¬ specStreamRule recA) :=
  ⟨Or.inr ⟨true, rfl⟩,
   (C1_bucket_assignment args0 [.obj recA, .obj recB] recA
       (Or.inr ⟨true, rfl⟩)).2.2.2.1.mp rfl⟩

/-! ### C2 -/

/-- C2: a record whose `metricStreamsSyncState` equals `"ENABLED"` is never
classified as a candidate under any flag setting, never appears in the
filter loop's candidate list, and no PUT request is ever issued whose body
carries `metricStreamsSyncState == "ENABLED"` (so none for such a record). -/
theorem C2_streaming_never_candidate :
    (∀ (a : Args) (item : PyDict),
        pyGet item "metricStreamsSyncState" = some (.str "ENABLED") →
          classify a item ≠ .candidate)
    ∧ (∀ (a : Args) (items : List JValue) (item : PyDict),
        pyGet item "metricStreamsSyncState" = some (.str "ENABLED") →
          item ∉ (filterRecords a items).candidates)
    ∧ (∀ (inp : RunInput) (p : JValue × PyDict),
        p ∈ (run inp).puts →
          pyGet p.2 "metricStreamsSyncState" ≠ some (.str "ENABLED")) := by
  have hcls : ∀ (a : Args) (item : PyDict),
      pyGet item "metricStreamsSyncState" = some (.str "ENABLED") →
        classify a item ≠ .candidate := by
    intro a item h hc
    have henb : pyGetEqEnabled item "metricStreamsSyncState" = true := by
      unfold pyGetEqEnabled
      rw [h]
      simp
    unfold classify at hc
    rw [henb] at hc
    split_ifs at hc with h1 h2 h3
    simp_all
  refine ⟨hcls, ?_, ?_⟩
  · intro a items item h hmem
    exact hcls a item h (mem_candidates_classify a items item hmem)
  · intro inp p hp h
    rcases run_puts_mem inp p hp with ⟨c, hc, hcid, hpe⟩
    have hmss : pyGet p.2 "metricStreamsSyncState"
        = pyGet c "metricStreamsSyncState" := by
      rw [hpe]
      exact pyGet_dictSet_ne c "coldPollRate" "metricStreamsSyncState" _
        (by decide)
    have hcand : classify inp.args c = .candidate :=
      mem_candidates_classify inp.args _ c hc
    exact hcls inp.args c (hmss ▸ h) hcand

theorem C2_streaming_never_candidate_witness :
    pyGet recStream "metricStreamsSyncState" = some (JValue.str "ENABLED")
      ∧ classify args0 recStream ≠ Bucket.candidate :=
  ⟨rfl, C2_streaming_never_candidate.1 args0 recStream rfl⟩

/-! ### C3 -/

theorem idConsIfTruthy_of_falsy (item : PyDict) (tail : List JValue)
    (h : truthyOpt (pyGet item "id") = false) :
    idConsIfTruthy item tail = tail := by
  unfold idConsIfTruthy
  rcases hg : pyGet item "id" with _ | v
  · rfl
  · rw [hg] at h
    simp only [truthyOpt] at h
    simp [h]

/-- C3 counterexample: the record `{"enabled": true}` lacks an `id`, yet the
filter loop keeps it in the `candidates` bucket — refuting the claim that a
record lacking an `id` appears in none of the four buckets. -/
theorem C3_counterexample :
    truthyOpt (pyGet recNoId "id") = false
      ∧ (filterRecords args0 [.obj recNoId]).candidates = [recNoId] :=
  ⟨rfl, rfl⟩

/-- C3 (amended): a record lacking a truthy `id` contributes nothing to the
three `filtered_*` buckets (hence to no reported filtered count), never
appears in the queued preview rows, and no PUT request is ever issued with a
body lacking a truthy `id` (so none for such a record); but, if eligible, it
is kept in the internal `candidates` list. -/
theorem C3_no_id_dropped (a : Args) (item : PyDict) (rest : List JValue)
    (hid : truthyOpt (pyGet item "id") = false) :
    ((filterRecords a (.obj item :: rest)).filtered_disabled
        = (filterRecords a rest).filtered_disabled
      ∧ (filterRecords a (.obj item :: rest)).filtered_cold_poll
        = (filterRecords a rest).filtered_cold_poll
      ∧ (filterRecords a (.obj item :: rest)).filtered_streaming
        = (filterRecords a rest).filtered_streaming)
    ∧ ((filterRecords a (.obj item :: rest)).candidates
          = (filterRecords a rest).candidates
        ∨ (filterRecords a (.obj item :: rest)).candidates
          = item :: (filterRecords a rest).candidates)
    ∧ (∀ (inp : RunInput) (row : Option JValue × Option JValue × Option JValue),
        row ∈ runRemaining inp → truthyOpt row.1 = true)
    ∧ (∀ (inp : RunInput) (p : JValue × PyDict),
        p ∈ (run inp).puts → truthyOpt (pyGet p.2 "id") = true) := by
  refine ⟨?_, ?_, ?_, ?_⟩
  · rcases hc : classify a item <;>
      simp [filterRecords, hc, idConsIfTruthy_of_falsy item _ hid]
  · rcases hc : classify a item <;>
      simp [filterRecords, hc, idConsIfTruthy_of_falsy item _ hid]
  · intro inp row hrow
    rw [runRemaining_eq] at hrow
    rcases List.mem_map.mp hrow with ⟨c, hc, hrw⟩
    have hcid : idBearing c = true := List.of_mem_filter hc
    rw [← hrw]
    exact hcid
  · intro inp p hp
    rcases run_puts_mem inp p hp with ⟨c, _, hcid, hpe⟩
    have : pyGet p.2 "id" = pyGet c "id" := by
      rw [hpe]
      exact pyGet_dictSet_ne c "coldPollRate" "id" _ (by decide)
    rw [this]
    exact hcid

theorem C3_no_id_dropped_witness :
    truthyOpt (pyGet recNoId "id") = false
      ∧ ((filterRecords args0 (.obj recNoId :: [])).filtered_disabled
            = (filterRecords args0 []).filtered_disabled
          ∧ (filterRecords args0 (.obj recNoId :: [])).filtered_cold_poll
            = (filterRecords args0 []).filtered_cold_poll
          ∧ (filterRecords args0 (.obj recNoId :: [])).filtered_streaming
            = (filterRecords args0 []).filtered_streaming) :=
  ⟨rfl, (C3_no_id_dropped args0 recNoId [] rfl).1⟩

/-! ### C4 -/

/-- C4 counterexample: with body `{"results": 7}` the `results` value is
consumed as-is (`7`, not an empty list), and the run fails with exit code 1
before printing anything — refuting the claim that a present non-array
`results` value is treated as an empty list with the run proceeding. -/
theorem C4_counterexample :
    pyGet [("results", JValue.num 7)] "results" = some (JValue.num 7)
      ∧ resultsOf inpBadResults.payload = JValue.num 7
      ∧ (run inpBadResults).exitCode = 1
      ∧ (run inpBadResults).stdout = [] :=
  ⟨rfl, rfl, rfl, rfl⟩

/-- C4 (amended): downstream consumes the body's `results` value verbatim
when present; a missing `results` key or a non-object (or empty) body is
treated as an empty list and the run proceeds with zero records; but a
present non-list `results` value is not replaced by an empty list — a
non-sized value (e.g. a number) aborts the run with a `TypeError` (exit 1)
instead of proceeding. -/
theorem C4_results_extraction :
    (∀ (fields : PyDict) (v : JValue),
        pyGet fields "results" = some v → resultsOf (some (.obj fields)) = v)
    ∧ (∀ fields : PyDict,
        pyGet fields "results" = none → resultsOf (some (.obj fields)) = .arr [])
    ∧ resultsOf none = .arr []
    ∧ (∀ v : JValue, (∀ fields : PyDict, v ≠ .obj fields)
        → resultsOf (some v) = .arr [])
    ∧ (∀ inp : RunInput, 1 ≤ inp.args.coldPollRateMinutes →
        resultsOf inp.payload = .arr [] →
          (run inp).stdout = [Ev.foundMsg 0, Ev.noCandidatesMsg]
          ∧ (run inp).exitCode = 0 ∧ (run inp).puts = [])
    ∧ (∀ inp : RunInput, 1 ≤ inp.args.coldPollRateMinutes →
        pyIter (resultsOf inp.payload) = none →
          (run inp).exitCode = 1 ∧ (run inp).stdout = []) := by
  refine ⟨?_, ?_, rfl, ?_, ?_, ?_⟩
  · intro fields v h
    show (pyGet fields "results").getD (.arr []) = v
    rw [h]
    rfl
  · intro fields h
    show (pyGet fields "results").getD (.arr []) = .arr []
    rw [h]
    rfl
  · intro v hv
    cases v with
    | obj fields => exact absurd rfl (hv fields)
    | null => rfl
    | bool b => rfl
    | num q => rfl
    | str s => rfl
    | arr items => rfl
  · intro inp hm hres
    have hitems : runItems inp = some [] := by
      unfold runItems
      rw [hres]
      rfl
    have hfo : runFilterOut inp = ⟨[], [], [], []⟩ := by
      unfold runFilterOut
      rw [hitems]
      rfl
    have hrem : (runRemaining inp).isEmpty = true := by
      rw [runRemaining_eq, hfo]
      rfl
    have hpre : runPreEvents inp [] = [Ev.foundMsg 0] := by
      unfold runPreEvents
      rw [hfo]
      simp
    rw [run_eq_nocand inp [] hm hitems hrem]
    rw [hpre]
    exact ⟨rfl, rfl, rfl⟩
  · intro inp hm hiter
    have hitems : runItems inp = none := hiter
    unfold run
    rw [if_neg (by omega), hitems]
    exact ⟨rfl, rfl⟩

theorem C4_results_extraction_witness :
    (pyGet [("results", JValue.num 7)] "results" = some (JValue.num 7)
      ∧ resultsOf (some (.obj [("results", JValue.num 7)])) = JValue.num 7)
    ∧ (1 ≤ inpEmpty.args.coldPollRateMinutes
      ∧ resultsOf inpEmpty.payload = .arr []
      ∧ (run inpEmpty).stdout = [Ev.foundMsg 0, Ev.noCandidatesMsg]
      ∧ (run inpEmpty).exitCode = 0 ∧ (run inpEmpty).puts = []) :=
  ⟨⟨rfl, C4_results_extraction.1 [("results", JValue.num 7)] (JValue.num 7) rfl⟩,
   by decide,
   rfl,
   C4_results_extraction.2.2.2.2.1 inpEmpty (by decide) rfl⟩

/-! ### C5 -/

/-- C5: every PUT body's `coldPollRate` equals exactly
`coldPollRateMinutes * 60000` (line 198), and the display conversion of an
existing value `v` yields `v / 60000` when `v ≥ 1000` and `v` unchanged
(already minutes) when `v < 1000` (lines 37–38). -/
theorem C5_unit_conversion :
    (∀ (inp : RunInput) (p : JValue × PyDict),
        p ∈ (run inp).puts →
          pyGet p.2 "coldPollRate"
            = some (.num (inp.args.coldPollRateMinutes * 60000)))
    ∧ (∀ v : ℚ, 1000 ≤ v → format_minutes_core v = v / 60000)
    ∧ (∀ v : ℚ, v < 1000 → format_minutes_core v = v) := by
  refine ⟨?_, ?_, ?_⟩
  · intro inp p hp
    rcases run_puts_mem inp p hp with ⟨c, _, _, hpe⟩
    rw [hpe]
    exact pyGet_dictSet_self c "coldPollRate" _
  · intro v hv
    unfold format_minutes_core
    rw [if_pos hv]
  · intro v hv
    unfold format_minutes_core
    rw [if_neg (by exact not_le.mpr hv)]

theorem C5_unit_conversion_witness :
    (putPair args0 recA ∈ (run inpHappy).puts
      ∧ pyGet (putPair args0 recA).2 "coldPollRate"
          = some (.num (args0.coldPollRateMinutes * 60000)))
    ∧ ((1000 : ℚ) ≤ 900000 ∧ format_minutes_core 900000 = 900000 / 60000)
    ∧ ((5 : ℚ) < 1000 ∧ format_minutes_core 5 = 5) :=
  ⟨⟨show putPair args0 recA ∈ [putPair args0 recA] from
      List.mem_singleton_self _,
    C5_unit_conversion.1 inpHappy (putPair args0 recA)
      (show putPair args0 recA ∈ [putPair args0 recA] from
        List.mem_singleton_self _)⟩,
   ⟨by norm_num, C5_unit_conversion.2.1 900000 (by norm_num)⟩,
   ⟨by norm_num, C5_unit_conversion.2.2 5 (by norm_num)⟩⟩

/-! ### C6 -/

/-- C6: every issued PUT body is its candidate record with only the
`coldPollRate` field overwritten to the target value — every other field,
known or unknown, reads back unchanged. -/
theorem C6_put_body_frame (inp : RunInput) (p : JValue × PyDict)
    (hp : p ∈ (run inp).puts) :
    ∃ item ∈ (runFilterOut inp).candidates,
      p.2 = dictSet item "coldPollRate"
          (.num (inp.args.coldPollRateMinutes * 60000))
      ∧ (∀ k : String, k ≠ "coldPollRate" → pyGet p.2 k = pyGet item k)
      ∧ pyGet p.2 "coldPollRate"
          = some (.num (inp.args.coldPollRateMinutes * 60000)) := by
  rcases run_puts_mem inp p hp with ⟨c, hc, _, hpe⟩
  refine ⟨c, hc, ?_, ?_, ?_⟩
  · rw [hpe]
    rfl
  · intro k hk
    rw [hpe]
    exact pyGet_dictSet_ne c "coldPollRate" k _ hk
  · rw [hpe]
    exact pyGet_dictSet_self c "coldPollRate" _

theorem C6_put_body_frame_witness :
    putPair args0 recA ∈ (run inpHappy).puts
      ∧ ∃ item ∈ (runFilterOut inpHappy).candidates,
          (putPair args0 recA).2 = dictSet item "coldPollRate"
              (.num (inpHappy.args.coldPollRateMinutes * 60000))
          ∧ (∀ k : String, k ≠ "coldPollRate" →
              pyGet (putPair args0 recA).2 k = pyGet item k)
          ∧ pyGet (putPair args0 recA).2 "coldPollRate"
              = some (.num (inpHappy.args.coldPollRateMinutes * 60000)) :=
  ⟨show putPair args0 recA ∈ [putPair args0 recA] from List.mem_singleton_self _,
   C6_put_body_frame inpHappy (putPair args0 recA)
     (show putPair args0 recA ∈ [putPair args0 recA] from
       List.mem_singleton_self _)⟩

/-! ### C7 -/

/-- C7: when the `(j+1)`-th PUT raises, the loop issues no further PUTs
(exactly `j + 1` were issued), stdout ends with the failure banner
("Update FAILED before completion.") followed by the partial report of the
`j` integrations updated so far, and the error is re-raised: the boundary
writes the `"Error: "`-prefixed message to stderr and the process exits 1. -/
theorem C7_put_failure_aborts (inp : RunInput) (items : List JValue)
    (j : Nat) (msg : String)
    (hm : 1 ≤ inp.args.coldPollRateMinutes)
    (hitems : runItems inp = some items)
    (hrem : (runRemaining inp).isEmpty = false)
    (hrep : normalizeReply inp.reply = "y" ∨ normalizeReply inp.reply = "yes")
    (hok : ∀ i, i < j → inp.putFail i = none)
    (hfail : inp.putFail j = some msg)
    (hj : j < ((runFilterOut inp).candidates.filter idBearing).length) :
    (run inp).puts.length = j + 1
    ∧ (run inp).stdout
        = runPreEvents inp items
            ++ [Ev.queuedMsg (runRemaining inp).length (runRemaining inp),
                Ev.promptMsg, Ev.updateFailedBanner,
                print_updated
                  (updateLoop inp.args (runFilterOut inp).candidates
                      inp.putFail).updated
                  (runFilterOut inp).candidates.length
                  inp.args.coldPollRateMinutes]
    ∧ (updateLoop inp.args (runFilterOut inp).candidates
          inp.putFail).updated.length = j
    ∧ (run inp).exitCode = 1
    ∧ (run inp).stderr = some ("\nError: " ++ msg) := by
  have hok0 : ∀ i, i < j → inp.putFail (0 + i) = none := by
    intro i hi
    simpa using hok i hi
  have hfail0 : inp.putFail (0 + j) = some msg := by simpa using hfail
  have hl := updateLoopAux_fail inp.args inp.putFail
    (runFilterOut inp).candidates 0 j msg hok0 hfail0 hj
  have herr : (updateLoop inp.args (runFilterOut inp).candidates
      inp.putFail).err = some msg := hl.1
  rw [run_eq_loop_err inp items msg hm hitems hrem hrep herr]
  exact ⟨hl.2.1, rfl, hl.2.2, rfl, rfl⟩

theorem C7_put_failure_aborts_witness :
    inpFailFirst.putFail 0 = some "HTTP 500 for PUT"
    ∧ (run inpFailFirst).puts.length = 0 + 1
    ∧ (updateLoop inpFailFirst.args (runFilterOut inpFailFirst).candidates
          inpFailFirst.putFail).updated.length = 0
    ∧ (run inpFailFirst).exitCode = 1
    ∧ (run inpFailFirst).stderr = some ("\nError: " ++ "HTTP 500 for PUT") :=
  ⟨rfl,
   (C7_put_failure_aborts inpFailFirst [.obj recA, .obj recE] 0
      "HTTP 500 for PUT" (by decide) rfl rfl (Or.inr rfl)
      (fun i hi => absurd hi (Nat.not_lt_zero i)) rfl (by decide)).1,
   (C7_put_failure_aborts inpFailFirst [.obj recA, .obj recE] 0
      "HTTP 500 for PUT" (by decide) rfl rfl (Or.inr rfl)
      (fun i hi => absurd hi (Nat.not_lt_zero i)) rfl (by decide)).2.2.1,
   (C7_put_failure_aborts inpFailFirst [.obj recA, .obj recE] 0
      "HTTP 500 for PUT" (by decide) rfl rfl (Or.inr rfl)
      (fun i hi => absurd hi (Nat.not_lt_zero i)) rfl (by decide)).2.2.2.1,
   (C7_put_failure_aborts inpFailFirst [.obj recA, .obj recE] 0
      "HTTP 500 for PUT" (by decide) rfl rfl (Or.inr rfl)
      (fun i hi => absurd hi (Nat.not_lt_zero i)) rfl (by decide)).2.2.2.2⟩

/-! ### C8 -/

/-- C8 counterexample: with a single candidate that lacks an `id` and the
declining reply `"n"`, the candidate set is non-empty and the normalized
reply is neither `"y"` nor `"yes"`, yet no "Aborted" message is printed
(the run takes the "No integrations meet the provided criteria" path
because the queued preview set — id-bearing candidates — is empty),
refuting the claim that an Aborted message is printed whenever the
candidate set is non-empty and the reply declines. -/
theorem C8_counterexample :
    (runFilterOut inpNoIdDecline).candidates = [recNoId]
      ∧ normalizeReply inpNoIdDecline.reply = "n"
      ∧ Ev.abortedMsg ∉ (run inpNoIdDecline).stdout
      ∧ (run inpNoIdDecline).puts = []
      ∧ (run inpNoIdDecline).exitCode = 0 := by
  refine ⟨rfl, rfl, ?_, rfl, rfl⟩
  rw [show (run inpNoIdDecline).stdout
      = [Ev.foundMsg 1, Ev.noCandidatesMsg] from rfl]
  simp

/-- C8 (amended): whenever at least one candidate carries a truthy `id`
(the queued preview set is non-empty) and the reply, stripped and
lowercased, is neither `"y"` nor `"yes"`, the program prints the Aborted
message, issues zero PUT requests, and exits 0. -/
theorem C8_decline_aborts (inp : RunInput) (items : List JValue)
    (hm : 1 ≤ inp.args.coldPollRateMinutes)
    (hitems : runItems inp = some items)
    (hrem : (runRemaining inp).isEmpty = false)
    (hrep : ¬(normalizeReply inp.reply = "y"
        ∨ normalizeReply inp.reply = "yes")) :
    (run inp).stdout
        = runPreEvents inp items
            ++ [Ev.queuedMsg (runRemaining inp).length (runRemaining inp),
                Ev.promptMsg, Ev.abortedMsg]
    ∧ (run inp).puts = [] ∧ (run inp).exitCode = 0 := by
  rw [run_eq_aborted inp items hm hitems hrem hrep]
  exact ⟨rfl, rfl, rfl⟩

theorem C8_decline_aborts_witness :
    (runRemaining inpDecline).isEmpty = false
    ∧ normalizeReply inpDecline.reply = "n"
    ∧ (run inpDecline).puts = []
    ∧ (run inpDecline).exitCode = 0
    ∧ (run inpDecline).stdout
        = runPreEvents inpDecline [.obj recA]
            ++ [Ev.queuedMsg (runRemaining inpDecline).length
                  (runRemaining inpDecline),
                Ev.promptMsg, Ev.abortedMsg] :=
  ⟨rfl, rfl,
   (C8_decline_aborts inpDecline [.obj recA] (by decide) rfl rfl
     (by decide)).2.1,
   (C8_decline_aborts inpDecline [.obj recA] (by decide) rfl rfl
     (by decide)).2.2,
   (C8_decline_aborts inpDecline [.obj recA] (by decide) rfl rfl
     (by decide)).1⟩

/-! ### C9 -/

/-- C9: whenever the candidate set is empty, the run prints the "No
integrations meet the provided criteria" message, never prints the
confirmation prompt, issues zero PUT requests, and exits 0. -/
theorem C9_empty_candidates (inp : RunInput) (items : List JValue)
    (hm : 1 ≤ inp.args.coldPollRateMinutes)
    (hitems : runItems inp = some items)
    (hcand : (runFilterOut inp).candidates = []) :
    (run inp).stdout = runPreEvents inp items ++ [Ev.noCandidatesMsg]
    ∧ Ev.promptMsg ∉ (run inp).stdout
    ∧ (run inp).puts = [] ∧ (run inp).exitCode = 0 := by
  have hrem : (runRemaining inp).isEmpty = true := by
    rw [runRemaining_eq, hcand]
    rfl
  rw [run_eq_nocand inp items hm hitems hrem]
  refine ⟨rfl, ?_, rfl, rfl⟩
  intro hmem
  rcases List.mem_append.mp hmem with h | h
  · exact promptMsg_not_mem_pre inp items h
  · simp at h

theorem C9_empty_candidates_witness :
    (runFilterOut inpEmpty).candidates = []
    ∧ (run inpEmpty).stdout = runPreEvents inpEmpty [] ++ [Ev.noCandidatesMsg]
    ∧ Ev.promptMsg ∉ (run inpEmpty).stdout
    ∧ (run inpEmpty).puts = []
    ∧ (run inpEmpty).exitCode = 0 :=
  ⟨rfl,
   (C9_empty_candidates inpEmpty [] (by decide) rfl rfl).1,
   (C9_empty_candidates inpEmpty [] (by decide) rfl rfl).2.1,
   (C9_empty_candidates inpEmpty [] (by decide) rfl rfl).2.2.1,
   (C9_empty_candidates inpEmpty [] (by decide) rfl rfl).2.2.2⟩

/-! ### C10 -/

/-- C10: when the candidate list contains a record without a truthy `id`,
then even with every PUT succeeding the final report is the
"Updated N integration(s)" count-and-table form, never the
"All updates succeeded" line, because `print_updated`'s expected total is
`len(candidates)` while `updated` only collects id-bearing candidates. -/
theorem C10_no_id_blocks_success (inp : RunInput) (items : List JValue)
    (hm : 1 ≤ inp.args.coldPollRateMinutes)
    (hitems : runItems inp = some items)
    (hrem : (runRemaining inp).isEmpty = false)
    (hrep : normalizeReply inp.reply = "y" ∨ normalizeReply inp.reply = "yes")
    (hok : ∀ i, inp.putFail i = none)
    (c : PyDict) (hc : c ∈ (runFilterOut inp).candidates)
    (hcid : idBearing c = false) :
    (run inp).stdout
        = runPreEvents inp items
            ++ [Ev.queuedMsg (runRemaining inp).length (runRemaining inp),
                Ev.promptMsg,
                Ev.updatedCountMsg
                  (((runFilterOut inp).candidates.filter idBearing).map
                    (updRow inp.args))]
    ∧ (∀ m : Int, Ev.allUpdatesSucceededMsg m ∉ (run inp).stdout) := by
  have hloop := updateLoopAux_all_ok inp.args inp.putFail hok
    (runFilterOut inp).candidates 0
  have herr : (updateLoop inp.args (runFilterOut inp).candidates
      inp.putFail).err = none := by
    unfold updateLoop
    rw [hloop]
  have hupd : (updateLoop inp.args (runFilterOut inp).candidates
      inp.putFail).updated
      = ((runFilterOut inp).candidates.filter idBearing).map (updRow inp.args)
      := by
    unfold updateLoop
    rw [hloop]
  have hlt : ((runFilterOut inp).candidates.filter idBearing).length
      < (runFilterOut inp).candidates.length :=
    filter_length_lt_of_mem_not idBearing _ c hc hcid
  have hne : ((runFilterOut inp).candidates.filter idBearing) ≠ [] := by
    intro h0
    rw [runRemaining_eq, h0] at hrem
    simp at hrem
  have hpu : print_updated
      (((runFilterOut inp).candidates.filter idBearing).map (updRow inp.args))
      (runFilterOut inp).candidates.length inp.args.coldPollRateMinutes
      = Ev.updatedCountMsg
          (((runFilterOut inp).candidates.filter idBearing).map
            (updRow inp.args)) := by
    unfold print_updated
    rw [if_neg, if_pos]
    · simp [hne]
    · intro hcontra
      rw [List.length_map] at hcontra
      omega
  rw [run_eq_loop_ok inp items hm hitems hrem hrep herr]
  constructor
  · rw [hupd, hpu]
  · intro m hmem
    rw [hupd, hpu] at hmem
    rcases List.mem_append.mp hmem with h | h
    · exact allOkMsg_not_mem_pre inp items m h
    · simp at h

theorem C10_no_id_blocks_success_witness :
    idBearing recNoId = false
    ∧ recNoId ∈ (runFilterOut inpMixed).candidates
    ∧ (run inpMixed).stdout
        = runPreEvents inpMixed [.obj recNoId, .obj recA]
            ++ [Ev.queuedMsg (runRemaining inpMixed).length
                  (runRemaining inpMixed),
                Ev.promptMsg,
                Ev.updatedCountMsg
                  (((runFilterOut inpMixed).candidates.filter idBearing).map
                    (updRow inpMixed.args))]
    ∧ Ev.allUpdatesSucceededMsg 15 ∉ (run inpMixed).stdout :=
  ⟨rfl,
   show recNoId ∈ [recNoId, recA] from List.mem_cons_self _ _,
   (C10_no_id_blocks_success inpMixed [.obj recNoId, .obj recA] (by decide)
      rfl rfl (Or.inl rfl) (fun _ => rfl) recNoId
      (show recNoId ∈ [recNoId, recA] from List.mem_cons_self _ _) rfl).1,
   (C10_no_id_blocks_success inpMixed [.obj recNoId, .obj recA] (by decide)
      rfl rfl (Or.inl rfl) (fun _ => rfl) recNoId
      (show recNoId ∈ [recNoId, recA] from List.mem_cons_self _ _) rfl).2 15⟩
